import Mathlib

/-!
Verification of the pokemon-remake scene/animation engine against its
specification.  The definitions below are shallow embeddings of the Python
source, chiefly `scenes/pokemon_map.py` (the map/battle scene) and
`your.app.folder/scene_manager.py`.  Machine integers are modelled as `Int`
(Python ints are unbounded), pixel coordinates and alphas that the source
stores as floats are modelled as `ℚ`, Python `//` floor division is
`Int.fdiv`, and Python `int(...)` applied to a non-negative float is
`Int.floor`.  Image and sound assets are assumed to load successfully (the
source's `try/except` fallbacks fire only when an asset file is missing);
asset pixel dimensions are parameters of the model where the source reads
them from the loaded images.
-/

namespace PokemonMap

/-! ## Configuration constants (config.py) -/

def SCREEN_WIDTH : Int := 480

def SCREEN_HEIGHT : Int := 320

def PLAYER_SPEED : Int := 3

/-! ## Walkable-area configuration (pokemon_map.py lines 31-40)

Rectangles are `(min_x, min_y, max_x, max_y)` with inclusive boundaries;
`walkable_cells` are individual cells. -/

def walkable_rectangles : List (Int × Int × Int × Int) :=
  [(15, 4, 16, 7), (14, 8, 16, 12)]

def walkable_cells : List (Int × Int) :=
  [(17, 8), (17, 9)]

/-- The walkability test, `is_cell_walkable_check` (pokemon_map.py lines
1850-1859): a cell is walkable iff it lies inside one of the configured
rectangles or equals one of the explicit single cells.  (The source defines
three further local copies of the same function, lines 1897-1906, 1954-1963
and 2023-2030; all four bodies are identical.) -/
def is_cell_walkable_check (cell_x cell_y : Int) : Bool :=
  (walkable_rectangles.any fun r =>
      decide (r.1 ≤ cell_x) && decide (cell_x ≤ r.2.2.1) &&
      decide (r.2.1 ≤ cell_y) && decide (cell_y ≤ r.2.2.2)) ||
  (walkable_cells.any fun c => decide (cell_x = c.1) && decide (cell_y = c.2))

/-- Claim C5: the walkability test is a pure predicate: `is_cell_walkable_check
(cx, cy)` holds iff the cell lies inside at least one configured rectangle
(bounds inclusive on all four sides) or equals one of the explicit single
cells; in particular, under rectangle (15,4,16,7), cells (15,4) and (16,7)
are walkable and (14,4) is not walkable (it is covered by no other range or
explicit cell). -/
theorem C5_walkability_pure_predicate :
    (∀ cx cy : Int,
      is_cell_walkable_check cx cy = true ↔
        ((∃ r ∈ walkable_rectangles,
            r.1 ≤ cx ∧ cx ≤ r.2.2.1 ∧ r.2.1 ≤ cy ∧ cy ≤ r.2.2.2) ∨
          (cx, cy) ∈ walkable_cells)) ∧
    is_cell_walkable_check 15 4 = true ∧
    is_cell_walkable_check 16 7 = true ∧
    is_cell_walkable_check 14 4 = false := by
  refine ⟨fun cx cy => ?_, by decide, by decide, by decide⟩
  simp only [is_cell_walkable_check, Bool.or_eq_true, List.any_eq_true,
    Bool.and_eq_true, decide_eq_true_eq]
  constructor
  · rintro (⟨r, hr, ⟨⟨h1, h2⟩, h3⟩, h4⟩ | ⟨c, hc, h1, h2⟩)
    · exact Or.inl ⟨r, hr, h1, h2, h3, h4⟩
    · refine Or.inr ?_
      have : (cx, cy) = c := by
        cases c
        simp_all
      rw [this]
      exact hc
  · rintro (⟨r, hr, h1, h2, h3, h4⟩ | hc)
    · exact Or.inl ⟨r, hr, ⟨⟨h1, h2⟩, h3⟩, h4⟩
    · exact Or.inr ⟨(cx, cy), hc, rfl, rfl⟩

/-! ## Player movement (pokemon_map.py lines 1802-2051)

The player sprite is 32x42 pixels (`player_width = 32`, `player_height = 42`,
and the character sprite sheet is cut into 32x42 frames, so
`(sprite_width - player_width) // 2 = 0` and the sprite's bounding box in the
constraint code below coincides with `(new_x, new_y, new_x+32, new_y+42)`).
The grid is 32x32. -/

/-- Python-style clamp `max(lo, min(v, hi))` as used for the map-bounds clamp
(lines 1872-1874). -/
def clampI (lo hi v : Int) : Int := max lo (min v hi)

/-- Outcome of one execution of the movement block (lines 1845-2048): the new
player position, whether the unconditional collision-sound call at lines
1886-1889 fired (move proposed from a walkable into a non-walkable cell), and
whether the edge-hold collision-sound condition at lines 1928-1947 held
(walking on an edge cell towards a non-walkable neighbour).  The actual
edge-hold play additionally requires `collision_sound_playing` to be false;
that flag lives outside this function and is threaded by `playerTick`. -/
structure MoveOutcome where
  x : Int
  y : Int
  ungatedPlay : Bool
  gatedCond : Bool
  deriving Repr, DecidableEq

/-- The movement block of `update` (lines 1845-2048), for one tick with
movement deltas `dx, dy` already computed from the held keys.  Mirrors the
source statement by statement: early exit when `dx = dy = 0` (line 1845),
map-bounds clamp with margin 10 (lines 1872-1874), centre-cell walkability of
the proposed position (lines 1877-1884), the unconditional collision sound on
walkable-to-non-walkable proposals (lines 1886-1889), rejection of the move
when the new cell is not walkable (line 1895), edge detection (lines
1908-1923), the edge-hold sound condition (lines 1928-1947), the four sprite
boundary constraints evaluated against the pre-constraint sprite box (lines
1967-2006), and the final walkability re-check of the constrained position
(lines 2008-2017). -/
def moveCore (mapW mapH x y dx dy : Int) : MoveOutcome :=
  if dx = 0 ∧ dy = 0 then ⟨x, y, false, false⟩ else
  let ccx := (x + 16).fdiv 32
  let ccy := (y + 21).fdiv 32
  let newX0 := clampI 10 (mapW - 32 - 10) (x + dx)
  let newY0 := clampI 10 (mapH - 42 - 10) (y + dy)
  let pcx := (newX0 + 16).fdiv 32
  let pcy := (newY0 + 21).fdiv 32
  let curW := is_cell_walkable_check ccx ccy
  let newW := is_cell_walkable_check pcx pcy
  let ungated := curW && !newW
  if newW then
    let isEdge :=
      (!is_cell_walkable_check pcx (pcy - 1) ||
       !is_cell_walkable_check pcx (pcy + 1) ||
       !is_cell_walkable_check (pcx - 1) pcy ||
       !is_cell_walkable_check (pcx + 1) pcy) ||
      decide ((pcx, pcy) ∈ walkable_cells)
    let dcx := if 0 < dx then pcx + 1 else if dx < 0 then pcx - 1 else pcx
    let dcy := if 0 < dy then pcy + 1 else if dy < 0 then pcy - 1 else pcy
    let gated := isEdge && !is_cell_walkable_check dcx dcy
    let sL := newX0
    let sR := newX0 + 32
    let sT := newY0
    let sB := newY0 + 42
    let cellL := pcx * 32
    let cellR := (pcx + 1) * 32
    let cellT := pcy * 32
    let cellB := (pcy + 1) * 32
    let newX1 :=
      if decide (sL < cellL) && !is_cell_walkable_check (pcx - 1) pcy then
        newX0 + (cellL - sL) else newX0
    let newX2 :=
      if decide (cellR < sR) && !is_cell_walkable_check (pcx + 1) pcy then
        newX1 - (sR - cellR) else newX1
    let newY1 :=
      if decide (sT < cellT) && !is_cell_walkable_check pcx (pcy - 1) then
        newY0 + (cellT - sT) else newY0
    let newY2 :=
      if decide (cellB < sB) && !is_cell_walkable_check pcx (pcy + 1) then
        newY1 - (sB - cellB) else newY1
    if is_cell_walkable_check ((newX2 + 16).fdiv 32) ((newY2 + 21).fdiv 32) then
      ⟨newX2, newY2, ungated, gated⟩
    else
      ⟨x, y, ungated, gated⟩
  else
    ⟨x, y, ungated, false⟩

/-- Claim C6: on every update tick in which the proposed new position's centre
grid cell (after the map-bounds clamp) is not walkable, the player's position
`(player_world_x, player_world_y)` is left unchanged by the tick. -/
theorem C6_nonwalkable_proposal_rejected (mapW mapH x y dx dy : Int)
    (h : is_cell_walkable_check
          ((clampI 10 (mapW - 32 - 10) (x + dx) + 16).fdiv 32)
          ((clampI 10 (mapH - 42 - 10) (y + dy) + 21).fdiv 32) = false) :
    (moveCore mapW mapH x y dx dy).x = x ∧
    (moveCore mapW mapH x y dx dy).y = y := by
  unfold moveCore
  split
  · exact ⟨rfl, rfl⟩
  · simp only [h]
    exact ⟨rfl, rfl⟩

/-- Witness for C6 at a concrete reachable input: at position `(525, 235)`
(centre cell `(16, 8)`, walkable) holding up+right proposes `(528, 232)` whose
centre cell `(17, 7)` is not walkable, and the position is unchanged. -/
theorem C6_nonwalkable_proposal_rejected_witness :
    is_cell_walkable_check
        ((clampI 10 (768 - 32 - 10) (525 + 3) + 16).fdiv 32)
        ((clampI 10 (512 - 42 - 10) (235 + -3) + 21).fdiv 32) = false ∧
    (moveCore 768 512 525 235 3 (-3)).x = 525 ∧
    (moveCore 768 512 525 235 3 (-3)).y = 235 := by
  refine ⟨by decide, ?_⟩
  exact C6_nonwalkable_proposal_rejected 768 512 525 235 3 (-3) (by decide)

/-! ## One full map-exploration update tick with collision-sound gating

`playerTick` threads through `moveCore` the state that the source keeps on
the scene object: the position, the `collision_sound_playing` flag and its
lazily-created `collision_sound_timer` (lines 3079-3090), and a
`movementLocked` flag abbreviating the movement gate at lines 1817-1825
(`dialog_visible or (lugia_state != "hidden" and not
lugia_animation_complete)`); the gate becomes (and stays) true once the
player walks under the cutscene sprite (trigger at lines 2121-2140, tested
against the position after this tick's movement, lines 2087-2092). -/

/-- Position of the cutscene (Lugia) sprite target, from the map dimensions
(pokemon_map.py lines 176-186): `lugia_target_x = cell_to_pixel x + 32`,
`lugia_target_y = cell_to_pixel y`. -/
def lugia_target_x (mapW : Int) : Int :=
  ((mapW.fdiv 32).fdiv 2 - 3) * 32 + 32

def lugia_target_y (mapH : Int) : Int :=
  ((mapH.fdiv 32).fdiv 4 - 5) * 32

/-- The trigger region test of lines 2074-2092: player centre cell in the row
of cells directly under the Lugia sprite (which is 132 px square). -/
def underLugia (mapW mapH x y : Int) : Bool :=
  let lugiaBottomCellY := (lugia_target_y mapH + 132).fdiv 32
  let lugiaLeftCellX := (lugia_target_x mapW).fdiv 32
  let lugiaRightCellX := (lugia_target_x mapW + 132).fdiv 32
  let pcx := (x + 16).fdiv 32
  let pcy := (y + 21).fdiv 32
  decide (lugiaLeftCellX ≤ pcx) && decide (pcx ≤ lugiaRightCellX) &&
  decide (pcy = lugiaBottomCellY)

structure MoveInput where
  up : Bool
  down : Bool
  left : Bool
  right : Bool
  deriving Repr, DecidableEq

structure PlayerState where
  x : Int
  y : Int
  movementLocked : Bool
  sndPlaying : Bool
  sndTimer : Nat
  deriving Repr, DecidableEq

/-- The edge-hold collision-sound throttle for one tick.  The play at line
1948 is guarded by `not self.collision_sound_playing` (line 1928), the play
sets the flag (line 1949), and the block at lines 3079-3090 (which runs after
the movement block in the same tick) accumulates the tick's elapsed time into
`collision_sound_timer` while the flag is set, clearing flag and timer once
750 ms have accumulated.  Takes the tick's edge-hold condition and elapsed
milliseconds; returns the new `(flag, timer)` state and whether the edge-hold
sound played this tick. -/
def collisionGateStep (cond : Bool) (dt : Nat) (st : Bool × Nat) :
    (Bool × Nat) × Bool :=
  let play := cond && !st.1
  let flag1 := st.1 || play
  if flag1 then
    if 750 ≤ st.2 + dt then ((false, 0), play) else ((true, st.2 + dt), play)
  else ((false, st.2), play)

/-- One `update()` tick restricted to the map-exploration fields: deltas from
the held keys at `PLAYER_SPEED` (lines 1826-1842, zeroed while the movement
gate is closed, lines 1817-1825), the movement block (`moveCore`), the
collision-sound flag/timer update (`collisionGateStep`, lines 1928-1949 and
3079-3090), and the cutscene trigger (lines 2121-2123).  The returned `Bool`
records whether `sfx_collision.play()` was invoked during the tick: either
unconditionally at lines 1886-1889, or on the throttled edge-hold path. -/
def playerTick (mapW mapH : Int) (inp : MoveInput) (dt : Nat)
    (s : PlayerState) : PlayerState × Bool :=
  let dx := if s.movementLocked then 0 else
    (if inp.left then -PLAYER_SPEED else 0) +
    (if inp.right then PLAYER_SPEED else 0)
  let dy := if s.movementLocked then 0 else
    (if inp.up then -PLAYER_SPEED else 0) +
    (if inp.down then PLAYER_SPEED else 0)
  let m := moveCore mapW mapH s.x s.y dx dy
  let g := collisionGateStep m.gatedCond dt (s.sndPlaying, s.sndTimer)
  let locked1 := s.movementLocked || underLugia mapW mapH m.x m.y
  (⟨m.x, m.y, locked1, g.1.1, g.1.2⟩, m.ungatedPlay || g.2)

def simulate (mapW mapH : Int) (dt : Nat) (inputs : List MoveInput)
    (s : PlayerState) : PlayerState :=
  inputs.foldl (fun st i => (playerTick mapW mapH i dt st).1) s

def inpUp : MoveInput := ⟨true, false, false, false⟩

def inpDown : MoveInput := ⟨false, true, false, false⟩

def inpLeft : MoveInput := ⟨false, false, true, false⟩

def inpRight : MoveInput := ⟨false, false, false, true⟩

def inpUpRight : MoveInput := ⟨true, false, false, true⟩

/-- The state on entering the map scene (`on_enter`, lines 1171-1186): player
at the centre of cell (15, 11), movement unlocked, collision sound idle. -/
def playerStart : PlayerState := ⟨496, 368, false, false, 0⟩

/-- A concrete held-key trace that steers the player from `playerStart` to the
corner position `(525, 235)` in cell (16, 8), next to the non-walkable
diagonal neighbour (17, 7).  Map dimensions 768x512 (the source's fallback
map size; any map at least this large behaves identically on this trace,
which stays far from the map edges). -/
def reachTrace : List MoveInput :=
  List.replicate 80 inpUp ++ List.replicate 6 inpLeft ++
  List.replicate 10 inpRight ++ List.replicate 37 inpDown ++
  List.replicate 6 inpRight ++ [inpLeft] ++ List.replicate 7 inpUp

def cornerState : PlayerState := simulate 768 512 16 reachTrace playerStart

set_option maxRecDepth 16000 in
/-- Claim C4 counterexample: from the reachable state `cornerState` (reached
from the scene-entry state by the held-key trace `reachTrace`), holding
up+right makes every tick propose a move from the walkable cell (16, 8) into
the non-walkable cell (17, 7); the source then calls
`self.sfx_collision.play()` unconditionally (lines 1886-1889), so the
collision sound is triggered on two consecutive ticks 16 ms apart — far more
than once per 750 ms window.  (The 750 ms stagger of lines 3079-3090 gates
only the edge-hold sound of lines 1928-1948, which requires the proposed cell
to be walkable.) -/
theorem C4_counterexample :
    is_cell_walkable_check ((cornerState.x + 16).fdiv 32)
        ((cornerState.y + 21).fdiv 32) = true ∧
    is_cell_walkable_check
        ((clampI 10 (768 - 32 - 10) (cornerState.x + PLAYER_SPEED) + 16).fdiv 32)
        ((clampI 10 (512 - 42 - 10) (cornerState.y - PLAYER_SPEED) + 21).fdiv 32)
      = false ∧
    (playerTick 768 512 inpUpRight 16 cornerState).1.x = cornerState.x ∧
    (playerTick 768 512 inpUpRight 16 cornerState).1.y = cornerState.y ∧
    (playerTick 768 512 inpUpRight 16 cornerState).2 = true ∧
    (playerTick 768 512 inpUpRight 16
        (playerTick 768 512 inpUpRight 16 cornerState).1).2 = true ∧
    16 + 16 < 750 := by
  decide

/-- A run of the throttle automaton over a list of `(edge-hold condition,
elapsed ms)` ticks, returning the final state and the number of times the
edge-hold sound was played. -/
def collisionGateRun : List (Bool × Nat) → Bool × Nat → (Bool × Nat) × Nat
  | [], st => (st, 0)
  | e :: rest, st =>
    let r1 := collisionGateStep e.1 e.2 st
    let r2 := collisionGateRun rest r1.1
    (r2.1, (if r1.2 then 1 else 0) + r2.2)

theorem collisionGateRun_flag_set (l : List (Bool × Nat)) :
    ∀ t : Nat, t + (l.map Prod.snd).sum < 750 →
      collisionGateRun l (true, t) = ((true, t + (l.map Prod.snd).sum), 0) := by
  induction l with
  | nil => intro t _; simp [collisionGateRun]
  | cons e rest ih =>
    intro t ht
    simp only [List.map_cons, List.sum_cons] at ht ⊢
    have hdt : ¬ 750 ≤ t + e.2 := by omega
    have hrest : (t + e.2) + (rest.map Prod.snd).sum < 750 := by omega
    have hstep : collisionGateStep e.1 e.2 (true, t) = ((true, t + e.2), false) := by
      simp [collisionGateStep, hdt]
    simp only [collisionGateRun, hstep, ih (t + e.2) hrest]
    simp [Nat.add_assoc]

/-- Amended claim C4: the edge-hold collision sound (the only rate-limited
collision-sound path: proposed move stays within walkable cells, on an edge
cell, towards a non-walkable neighbour) is triggered at most once within any
window of ticks whose elapsed times sum to less than 750 ms, starting from
the idle throttle state. -/
theorem C4_amended_edge_hold_rate_limited (l : List (Bool × Nat))
    (h : (l.map Prod.snd).sum < 750) :
    (collisionGateRun l (false, 0)).2 ≤ 1 := by
  induction l with
  | nil => simp [collisionGateRun]
  | cons e rest ih =>
    simp only [List.map_cons, List.sum_cons] at h
    by_cases hc : e.1 = true
    · have hdt : ¬ 750 ≤ e.2 := by omega
      have hrest : e.2 + (rest.map Prod.snd).sum < 750 := by omega
      have hstep : collisionGateStep e.1 e.2 (false, 0) = ((true, e.2), true) := by
        simp [collisionGateStep, hc, hdt]
      simp only [collisionGateRun, hstep,
        collisionGateRun_flag_set rest e.2 hrest]
      simp
    · have hc' : e.1 = false := by
        cases h' : e.1
        · rfl
        · exact absurd h' hc
      have hstep : collisionGateStep e.1 e.2 (false, 0) = ((false, 0), false) := by
        simp [collisionGateStep, hc']
      have hrest : (rest.map Prod.snd).sum < 750 := by omega
      simp only [collisionGateRun, hstep]
      simpa using ih hrest

/-- Witness for the amended C4 at a concrete input: two edge-hold ticks 16 ms
apart play the sound only once. -/
theorem C4_amended_edge_hold_rate_limited_witness :
    ([(true, 16), (true, 16)].map Prod.snd).sum < 750 ∧
    (collisionGateRun [(true, 16), (true, 16)] (false, 0)).2 ≤ 1 :=
  ⟨by decide, C4_amended_edge_hold_rate_limited [(true, 16), (true, 16)]
    (by decide)⟩

/-! ## Rate-based slide animations (pokemon_map.py lines 1049-1103, 2314-2352)

Each battle slide-in element advances a fixed amount per tick and snaps to
its target on the tick it would cross it.  The per-element speeds are
precomputed at construction time so that elements travelling different
distances finish together. -/

/-- Per-element slide speed (lines 1077-1103): `(d / max_distance) *
battle_slide_speed_base` when both the maximum distance and the element's own
distance are positive, else the base speed. -/
def slideSpeed (d maxD base : ℚ) : ℚ :=
  if 0 < maxD then (if 0 < d then d / maxD * base else base) else base

/-- One tick of a rightward/downward rate slide (e.g. grass, lines
2317-2321): move by `speed` while short of the target, snapping to the
target on the tick that reaches or crosses it. -/
def slideTowardInc (target speed x : ℚ) : ℚ :=
  if x < target then (if target ≤ x + speed then target else x + speed) else x

/-- One tick of a leftward/upward rate slide (e.g. water, lines 2330-2335):
mirror image of `slideTowardInc`. -/
def slideTowardDec (target speed x : ℚ) : ℚ :=
  if target < x then (if x - speed ≤ target then target else x - speed) else x

/-- `n` ticks of a rightward rate slide. -/
def slideIter (target speed : ℚ) : Nat → ℚ → ℚ
  | 0, x => x
  | n + 1, x => slideIter target speed n (slideTowardInc target speed x)

theorem slideIter_closed_form (target speed : ℚ) (hs : 0 < speed) :
    ∀ (n : Nat) (x : ℚ), x ≤ target →
      slideIter target speed n x =
        if target ≤ x + n * speed then target else x + n * speed := by
  intro n
  induction n with
  | zero =>
    intro x hx
    simp only [slideIter, Nat.cast_zero, zero_mul, add_zero]
    split
    · next h => exact le_antisymm hx h
    · rfl
  | succ n ih =>
    intro x hx
    show slideIter target speed n (slideTowardInc target speed x) = _
    unfold slideTowardInc
    have hn : (0 : ℚ) ≤ (n : ℚ) * speed := by positivity
    split
    · next hlt =>
      split
      · next hsnap =>
        rw [ih target le_rfl, if_pos (by linarith), if_pos]
        push_cast
        have hexp : ((n : ℚ) + 1) * speed = (n : ℚ) * speed + speed := by ring
        linarith
      · next hsnap =>
        rw [ih (x + speed) (le_of_not_le hsnap)]
        push_cast
        have hcond : x + speed + (n : ℚ) * speed = x + ((n : ℚ) + 1) * speed := by
          ring
        rw [hcond]
    · next hge =>
      have hx' : x = target := le_antisymm hx (le_of_not_lt hge)
      subst hx'
      rw [ih x le_rfl, if_pos (by linarith), if_pos]
      push_cast
      have hexp : ((n : ℚ) + 1) * speed = (n : ℚ) * speed + speed := by ring
      linarith

/-- Claim C2: for the battle slide-in group (grass, opponent stat panel,
water, trainer), each element's per-tick speed is `base_speed * (own distance
/ max distance)` (lines 1077-1097), and an element with positive distance `d
≤ maxD` that starts sliding and advances every tick has reached its target
after tick `n` exactly when `maxD / base ≤ n` — a bound independent of `d`,
so all elements of the group started on the same tick arrive on the very same
tick (in particular within one tick of each other, and the shorter-distance
element no later than the longer one).  The witness instantiates the claim's
concrete case: distances 100 and 50 with base speed 10 both arrive exactly at
tick `ceil(100/10) = 10`. -/
theorem C2_proportional_speed_synchronized_arrival
    (d maxD base target : ℚ) (n : Nat)
    (hd : 0 < d) (hdm : d ≤ maxD) (hb : 0 < base) :
    slideSpeed d maxD base = d / maxD * base ∧
    (slideIter target (slideSpeed d maxD base) n (target - d) = target ↔
      maxD / base ≤ (n : ℚ)) := by
  have hmaxD : 0 < maxD := lt_of_lt_of_le hd hdm
  have hspeed : slideSpeed d maxD base = d / maxD * base := by
    simp [slideSpeed, hmaxD, hd]
  have hspos : 0 < d / maxD * base := by positivity
  refine ⟨hspeed, ?_⟩
  rw [hspeed,
    slideIter_closed_form target (d / maxD * base) hspos n (target - d)
      (by linarith)]
  have key : d ≤ (n : ℚ) * (d / maxD * base) ↔ maxD ≤ (n : ℚ) * base := by
    rw [show (n : ℚ) * (d / maxD * base) = ((n : ℚ) * base * d) / maxD by ring,
      le_div_iff₀ hmaxD]
    constructor
    · intro h1
      nlinarith
    · intro h1
      nlinarith
  constructor
  · intro h
    rw [div_le_iff₀ hb]
    by_cases hc : target ≤ target - d + (n : ℚ) * (d / maxD * base)
    · exact key.mp (by linarith)
    · rw [if_neg hc] at h
      exact key.mp (by linarith)
  · intro h
    have h1 : d ≤ (n : ℚ) * (d / maxD * base) :=
      key.mpr ((div_le_iff₀ hb).mp h)
    rw [if_pos (by linarith)]

/-- Witness for C2 at the claim's concrete inputs: distances 100 and 50, base
speed 10; both elements have reached their targets after `ceil(100/10) = 10`
ticks and neither has at tick 9, so the distance-50 element arrives no later
than the distance-100 element. -/
theorem C2_proportional_speed_synchronized_arrival_witness :
    ((0 : ℚ) < 100 ∧ (100 : ℚ) ≤ 100 ∧ (0 : ℚ) < 10 ∧
      (0 : ℚ) < 50 ∧ (50 : ℚ) ≤ 100) ∧
    slideIter 0 (slideSpeed 100 100 10) 10 (0 - 100) = 0 ∧
    slideIter 0 (slideSpeed 50 100 10) 10 (0 - 50) = 0 ∧
    ¬ slideIter 0 (slideSpeed 100 100 10) 9 (0 - 100) = 0 ∧
    ¬ slideIter 0 (slideSpeed 50 100 10) 9 (0 - 50) = 0 := by
  refine ⟨by norm_num, ?_, ?_, ?_, ?_⟩
  · exact (C2_proportional_speed_synchronized_arrival 100 100 10 0 10
      (by norm_num) (by norm_num) (by norm_num)).2.mpr (by norm_num)
  · exact (C2_proportional_speed_synchronized_arrival 50 100 10 0 10
      (by norm_num) (by norm_num) (by norm_num)).2.mpr (by norm_num)
  · intro hreach
    have := (C2_proportional_speed_synchronized_arrival 100 100 10 0 9
      (by norm_num) (by norm_num) (by norm_num)).2.mp hreach
    norm_num at this
  · intro hreach
    have := (C2_proportional_speed_synchronized_arrival 50 100 10 0 9
      (by norm_num) (by norm_num) (by norm_num)).2.mp hreach
    norm_num at this

/-! ## Duration-based eased animators (pokemon_map.py lines 3176-3217 etc.)

Every duration-based animator computes `progress = min(1.0, timer /
duration)` from a timer that accumulates the tick times, optionally easing it
with smoothstep before interpolating. -/

def animProgress (elapsed duration : ℚ) : ℚ := min 1 (elapsed / duration)

/-- The smoothstep easing `t * t * (3 - 2 * t)` (lines 3202-3204). -/
def smoothstep (t : ℚ) : ℚ := t * t * (3 - 2 * t)

/-- Claim C3: for every duration-based eased animator, the normalised
progress `min(1, elapsed/duration)` is monotonically non-decreasing in the
accumulated elapsed time and never exceeds 1; and for every rate-based slide
the animated coordinate never passes its target — on the tick that would
cross the target it snaps exactly to the target, and once at the target it
stays there (both slide directions). -/
theorem C3_progress_monotone_value_never_overshoots
    (duration e1 e2 target speed x y : ℚ)
    (hdu : 0 < duration) (h12 : e1 ≤ e2) (hx : x ≤ target) (hy : target ≤ y) :
    animProgress e1 duration ≤ animProgress e2 duration ∧
    animProgress e2 duration ≤ 1 ∧
    slideTowardInc target speed x ≤ target ∧
    (x < target → target ≤ x + speed → slideTowardInc target speed x = target) ∧
    slideTowardInc target speed target = target ∧
    target ≤ slideTowardDec target speed y ∧
    (target < y → y - speed ≤ target → slideTowardDec target speed y = target) ∧
    slideTowardDec target speed target = target := by
  refine ⟨?_, ?_, ?_, ?_, ?_, ?_, ?_, ?_⟩
  · exact min_le_min le_rfl ((div_le_div_iff_of_pos_right hdu).mpr h12)
  · exact min_le_left 1 (e2 / duration)
  · unfold slideTowardInc
    split
    · split
      · exact le_rfl
      · next h => linarith [le_of_not_le h]
    · exact hx
  · intro h1 h2
    unfold slideTowardInc
    rw [if_pos h1, if_pos h2]
  · simp [slideTowardInc]
  · unfold slideTowardDec
    split
    · split
      · exact le_rfl
      · next h => linarith [le_of_not_le h]
    · exact hy
  · intro h1 h2
    unfold slideTowardDec
    rw [if_pos h1, if_pos h2]
  · simp [slideTowardDec]

/-- Witness for C3 at concrete inputs: duration 1000 ms, elapsed 200 then
700 ms; an upward slide at 40 below its target with speed 100 snaps exactly
to the target. -/
theorem C3_progress_monotone_value_never_overshoots_witness :
    ((0 : ℚ) < 1000 ∧ (200 : ℚ) ≤ 700 ∧ (60 : ℚ) ≤ 100 ∧ (100 : ℚ) ≤ 140) ∧
    animProgress 200 1000 ≤ animProgress 700 1000 ∧
    animProgress 700 1000 ≤ 1 ∧
    slideTowardInc 100 100 60 ≤ 100 ∧
    ((60 : ℚ) < 100 → (100 : ℚ) ≤ 60 + 100 → slideTowardInc 100 100 60 = 100) ∧
    slideTowardInc 100 100 100 = 100 ∧
    (100 : ℚ) ≤ slideTowardDec 100 100 140 ∧
    ((100 : ℚ) < 140 → (140 : ℚ) - 100 ≤ 100 → slideTowardDec 100 100 140 = 100) ∧
    slideTowardDec 100 100 100 = 100 :=
  ⟨by norm_num,
    C3_progress_monotone_value_never_overshoots 1000 200 700 100 100 60 140
      (by norm_num) (by norm_num) (by norm_num) (by norm_num)⟩

/-! ## Camera (pokemon_map.py lines 1784-1800)

`update_camera` recomputes the camera offset from the player position and
the map bounds; it is called at construction, in `on_enter`, and once per
`update` tick right after the movement block (line 2051). -/

/-- The source's `update_camera`: `target = player_world - screen//2`, then
clamp componentwise to `[0, max(0, map - screen)]`. -/
def update_camera (mapW mapH x y : Int) : Int × Int :=
  (max 0 (min (x - SCREEN_WIDTH.fdiv 2) (max 0 (mapW - SCREEN_WIDTH))),
   max 0 (min (y - SCREEN_HEIGHT.fdiv 2) (max 0 (mapH - SCREEN_HEIGHT))))

/-- The camera law as the specification words it: clamp of the player's
CENTRE point (`player_world + (16, 21)` for the 32x42 player box) minus half
the screen size.  Kept separate from `update_camera` so the two can be
compared. -/
def cameraSpecCentre (mapW mapH x y : Int) : Int × Int :=
  (max 0 (min ((x + 16) - SCREEN_WIDTH.fdiv 2) (max 0 (mapW - SCREEN_WIDTH))),
   max 0 (min ((y + 21) - SCREEN_HEIGHT.fdiv 2) (max 0 (mapH - SCREEN_HEIGHT))))

/-- Claim C8 counterexample: the source clamps `player_world_x - screen/2`
(the player's TOP-LEFT corner, line 1790), not the player's centre point: on
a 768x512 map with the player at the scene-entry position (496, 368) the code
yields camera x = 256 whereas the centre-point formula of the claim yields
272. -/
theorem C8_counterexample :
    update_camera 768 512 496 368 ≠ cameraSpecCentre 768 512 496 368 ∧
    update_camera 768 512 496 368 = (256, 192) ∧
    cameraSpecCentre 768 512 496 368 = (272, 192) := by
  refine ⟨?_, by decide, by decide⟩
  decide

/-! ## End-scene lockstep fade (pokemon_map.py lines 2862-2869)

During the full-screen black fade-in the black background's alpha is
`int(255 * p)` and the battle elements' shared fade-out alpha is
`int(255 * (1 - p))`, with `p = min(1, timer / duration)` and
`end_scene_black_bg_duration = 1000`. -/

def end_scene_black_bg_alpha (timer duration : Nat) : Int :=
  ⌊(255 : ℚ) * animProgress (timer : ℚ) (duration : ℚ)⌋

def end_scene_elements_fade_alpha (timer duration : Nat) : Int :=
  ⌊(255 : ℚ) * (1 - animProgress (timer : ℚ) (duration : ℚ))⌋

/-- Claim C9 counterexample: the two alphas are NOT in exact lockstep
`alpha = 255 - blackAlpha`: at timer = 100 ms of the 1000 ms fade the black
alpha is `int(25.5) = 25` but the elements' alpha is `int(229.5) = 229`,
not `255 - 25 = 230` (Python `int` truncates each side separately). -/
theorem C9_counterexample :
    end_scene_black_bg_alpha 100 1000 = 25 ∧
    end_scene_elements_fade_alpha 100 1000 = 229 ∧
    end_scene_elements_fade_alpha 100 1000 ≠
      255 - end_scene_black_bg_alpha 100 1000 := by
  have h1 : end_scene_black_bg_alpha 100 1000 = 25 := by
    unfold end_scene_black_bg_alpha animProgress
    norm_num
  have h2 : end_scene_elements_fade_alpha 100 1000 = 229 := by
    unfold end_scene_elements_fade_alpha animProgress
    norm_num
  refine ⟨h1, h2, ?_⟩
  rw [h1, h2]
  norm_num

/-- Amended claim C9: on every tick of the end-scene black fade-in the two
alphas move in lockstep up to the separate integer truncations: their sum is
`255 - (⌈255p⌉ - ⌊255p⌋)`, hence exactly 255 when `255p` is an integer and
254 otherwise; in particular the elements' alpha always lies within one unit
of `255 - blackAlpha`. -/
theorem C9_amended_lockstep_within_one_unit (timer duration : Nat) :
    end_scene_black_bg_alpha timer duration +
        end_scene_elements_fade_alpha timer duration =
      255 - (⌈(255 : ℚ) * animProgress (timer : ℚ) (duration : ℚ)⌉ -
             ⌊(255 : ℚ) * animProgress (timer : ℚ) (duration : ℚ)⌋) ∧
    254 ≤ end_scene_black_bg_alpha timer duration +
          end_scene_elements_fade_alpha timer duration ∧
    end_scene_black_bg_alpha timer duration +
        end_scene_elements_fade_alpha timer duration ≤ 255 := by
  have hfl : end_scene_elements_fade_alpha timer duration =
      255 - ⌈(255 : ℚ) * animProgress (timer : ℚ) (duration : ℚ)⌉ := by
    unfold end_scene_elements_fade_alpha
    have h1 : (255 : ℚ) * (1 - animProgress (timer : ℚ) (duration : ℚ)) =
        ((255 : ℤ) : ℚ) + (-(255 * animProgress (timer : ℚ) (duration : ℚ))) := by
      push_cast
      ring
    rw [h1, Int.floor_int_add, Int.floor_neg]
    ring
  have hle := Int.floor_le_ceil
    ((255 : ℚ) * animProgress (timer : ℚ) (duration : ℚ))
  have hge := Int.ceil_le_floor_add_one
    ((255 : ℚ) * animProgress (timer : ℚ) (duration : ℚ))
  unfold end_scene_black_bg_alpha at *
  refine ⟨by rw [hfl]; ring, by rw [hfl]; omega, by rw [hfl]; omega⟩

/-! ## Scene manager (your.app.folder/scene_manager.py)

Scenes are registered in a dict and switched by name; switching to an
unregistered name only prints a warning.  A scene is modelled by an id plus
flags recording whether it defines `on_exit` / `on_enter` (the source guards
both calls with `hasattr`).  Registration prepends and lookup is head-first,
matching the dict's replace-on-assign semantics. -/

structure Scene where
  id : Nat
  hasOnExit : Bool
  hasOnEnter : Bool
  deriving Repr, DecidableEq

inductive SceneCallback where
  | onExit (id : Nat)
  | onEnter (id : Nat)
  deriving Repr, DecidableEq

structure SceneManager where
  scenes : List (String × Scene)
  current_scene : Option Scene
  current_scene_name : Option String
  deriving Repr, DecidableEq

def lookupScene : List (String × Scene) → String → Option Scene
  | [], _ => none
  | e :: rest, name => if e.1 = name then some e.2 else lookupScene rest name

/-- `register_scene` (scene_manager.py lines 13-15). -/
def register_scene (m : SceneManager) (name : String) (s : Scene) :
    SceneManager :=
  { m with scenes := (name, s) :: m.scenes }

/-- `change_scene` (scene_manager.py lines 17-33): when the name is
registered, call `on_exit` on the current scene (if any, and if it defines
one), switch name and scene, then call `on_enter` on the new scene (if it
defines one); when the name is unknown, print a warning and do nothing.  The
returned list records the callbacks invoked, in order. -/
def change_scene (m : SceneManager) (name : String) :
    SceneManager × List SceneCallback :=
  match lookupScene m.scenes name with
  | some s =>
    let exitCbs : List SceneCallback :=
      match m.current_scene with
      | some c => if c.hasOnExit then [SceneCallback.onExit c.id] else []
      | none => []
    let enterCbs : List SceneCallback :=
      if s.hasOnEnter then [SceneCallback.onEnter s.id] else []
    ({ m with current_scene := some s, current_scene_name := some name },
      exitCbs ++ enterCbs)
  | none => (m, [])

/-- Claim C10: calling `SceneManager.change_scene` with a name that was never
registered leaves the manager's state unchanged — the active scene and active
scene name keep their previous values — and neither `on_exit` on the current
scene nor `on_enter` on any scene is invoked. -/
theorem C10_change_scene_unknown_name_noop (m : SceneManager) (name : String)
    (h : lookupScene m.scenes name = none) :
    change_scene m name = (m, []) := by
  unfold change_scene
  rw [h]

/-- Witness for C10 at a concrete input: a manager holding one scene
registered as "pokemon_map", asked to switch to the unregistered "battle". -/
theorem C10_change_scene_unknown_name_noop_witness :
    lookupScene [("pokemon_map", ⟨0, true, true⟩)] "battle" = none ∧
    change_scene ⟨[("pokemon_map", ⟨0, true, true⟩)],
        some ⟨0, true, true⟩, some "pokemon_map"⟩ "battle" =
      (⟨[("pokemon_map", ⟨0, true, true⟩)],
        some ⟨0, true, true⟩, some "pokemon_map"⟩, []) :=
  ⟨by decide,
    C10_change_scene_unknown_name_noop
      ⟨[("pokemon_map", ⟨0, true, true⟩)],
        some ⟨0, true, true⟩, some "pokemon_map"⟩ "battle" (by decide)⟩

/-! ## Battle slide-in and trainer throw animation (lines 2314-2450)

After the fade to the battle completes (`fade_state == "faded"`, with
`move_used_state == "none"`), the grass, opponent stat panel, water, Lugia
sprite and trainer sprite slide concurrently to their targets; the trainer's
throw-frame animation is enabled once the completion check at lines
2386-2398 passes.  Targets and speeds are fixed at construction (lines
830-903, 936-952 and 1049-1103) from the asset dimensions, which enter the
model as parameters. -/

structure SlideParams where
  grassTarget : ℚ
  statTarget : ℚ
  waterTarget : ℚ
  lugiaTarget : ℚ
  trainerTarget : ℚ
  grassSpeed : ℚ
  statSpeed : ℚ
  waterSpeed : ℚ
  trainerSpeed : ℚ
  trainerFrames : Nat
  deriving Repr, DecidableEq

/-- Construction-time targets and speeds (lines 830-903, 936-952, 1049-1103)
from the widths of the grass, stat-panel and water images and the 1.5x-scaled
Lugia sprite: grass and stat panel start one own-width off-screen left with
target 0; water and the trainer start at `SCREEN_WIDTH`; the water's target
leaves it flush right, the Lugia sprite is centred on the water's target
position and slides at the water's speed; the trainer's target is 0.  Speeds
are distance-proportional with base 8 (`battle_slide_speed_base`). -/
def mkSlideParams (grassW statW waterW lugiaScaledW : ℚ)
    (trainerFrames : Nat) : SlideParams :=
  let grassD := |(0 : ℚ) - (-grassW)|
  let statD := |(0 : ℚ) - (-statW)|
  let waterTarget := 480 - waterW
  let waterD := |waterTarget - 480|
  let trainerD := |(0 : ℚ) - 480|
  let maxD := max (max grassD statD) (max waterD trainerD)
  ⟨0, 0, waterTarget, waterTarget + waterW / 2 - lugiaScaledW / 2, 0,
   slideSpeed grassD maxD 8, slideSpeed statD maxD 8,
   slideSpeed waterD maxD 8, slideSpeed trainerD maxD 8, trainerFrames⟩

structure BattleSlideState where
  grassX : ℚ
  statX : ℚ
  waterX : ℚ
  lugiaX : ℚ
  trainerX : ℚ
  trainerVisible : Bool
  trainerCanAnimate : Bool
  trainerFrame : Nat
  trainerAnimTime : ℚ
  trainerSlideOut : Bool
  trainerAlpha : Int
  venuVisible : Bool
  deriving Repr, DecidableEq

/-- The state at the start of the battle slide-in (fade just completed, lines
2283-2294 with the constructor's start positions): every element at its start
position, trainer visible with animation disabled, frame 0. -/
def battleStart (grassW statW : ℚ) : BattleSlideState :=
  ⟨-grassW, -statW, 480, 480, 480, true, false, 0, 0, false, 255, false⟩

/-! `slideStep` below is one `update()` tick of the battle slide-in
subsystem, modelling lines 2314-2450 for states with `fade_state == "faded"`
and `move_used_state == "none"` (all slide-in visibility flags are true in
this phase, set at lines 2283-2294; the trainer's own flag, which this code
clears after the slide-out, is part of the state):

  - lines 2317-2335: grass, stat panel and water advance by their own speeds
    and snap to their targets;
  - lines 2338-2345: the Lugia sprite advances at the water's speed towards
    its own target;
  - lines 2348-2352: the trainer slides in at its own speed;
  - lines 2386-2398: `all_animations_complete` checks the POST-slide grass,
    stat panel, water and trainer positions — but not the Lugia sprite;
  - lines 2404-2406: the check latches `battle_trainer_can_animate`;
  - lines 2409-2433: with the latch set, the trainer at its target and no
    slide-out, the frame timer accumulates 0.15/tick and on reaching 1 the
    frame advances, or, at the last frame, the venusaur is revealed and the
    trainer slide-out begins;
  - lines 2436-2450: slide-out moves the trainer left towards -180, fading
    it, and hides it once off-screen or fully faded.

The per-tick computations are split into named helper functions so that the
gating proofs below can reason field by field. -/

/-- POST-slide trainer x position for the tick (lines 2348-2352). -/
def trainerSlidX (p : SlideParams) (s : BattleSlideState) : ℚ :=
  slideTowardDec p.trainerTarget p.trainerSpeed s.trainerX

/-- `all_animations_complete` (lines 2386-2398): checks the tick's POST-slide
grass, stat panel, water and trainer positions — the Lugia sprite is NOT
checked. -/
def slideAllComplete (p : SlideParams) (s : BattleSlideState) : Bool :=
  decide (slideTowardInc p.grassTarget p.grassSpeed s.grassX = p.grassTarget) &&
  decide (slideTowardInc p.statTarget p.statSpeed s.statX = p.statTarget) &&
  decide (slideTowardDec p.waterTarget p.waterSpeed s.waterX = p.waterTarget) &&
  decide (trainerSlidX p s = p.trainerTarget)

/-- The `battle_trainer_can_animate` latch after the tick (lines 2404-2406). -/
def trainerCanAnimate1 (p : SlideParams) (s : BattleSlideState) : Bool :=
  s.trainerCanAnimate || slideAllComplete p s

/-- The guard of the frame-timer accumulation (line 2409). -/
def trainerAdv (p : SlideParams) (s : BattleSlideState) : Bool :=
  trainerCanAnimate1 p s && decide (trainerSlidX p s = p.trainerTarget) &&
  !s.trainerSlideOut

/-- Whether the frame timer reaches 1 this tick (lines 2411-2412;
`battle_trainer_animation_speed = 0.15`). -/
def trainerFire (p : SlideParams) (s : BattleSlideState) : Bool :=
  trainerAdv p s && decide ((1 : ℚ) ≤ s.trainerAnimTime + 3 / 20)

def trainerNotLast (p : SlideParams) (s : BattleSlideState) : Bool :=
  decide (s.trainerFrame < p.trainerFrames - 1)

/-- Whether this tick starts the trainer slide-out (lines 2421-2433: timer
fired at the last frame). -/
def trainerStartSlideOut (p : SlideParams) (s : BattleSlideState) : Bool :=
  trainerFire p s && !trainerNotLast p s

def trainerSlideOut1 (p : SlideParams) (s : BattleSlideState) : Bool :=
  trainerStartSlideOut p s || s.trainerSlideOut

/-- The trainer frame index after the tick (lines 2414-2416). -/
def trainerFrame1 (p : SlideParams) (s : BattleSlideState) : Nat :=
  if trainerFire p s && trainerNotLast p s then s.trainerFrame + 1
  else s.trainerFrame

def trainerAnimTime1 (p : SlideParams) (s : BattleSlideState) : ℚ :=
  if trainerAdv p s then
    (if (1 : ℚ) ≤ s.trainerAnimTime + 3 / 20 then 0
     else s.trainerAnimTime + 3 / 20)
  else s.trainerAnimTime

def trainerMovedX (p : SlideParams) (s : BattleSlideState) : ℚ :=
  if trainerSlideOut1 p s then
    (if -180 < trainerSlidX p s then trainerSlidX p s - p.trainerSpeed
     else trainerSlidX p s)
  else trainerSlidX p s

/-- The trainer alpha after the tick: set to 255 on starting the slide-out
(line 2433), then recomputed from the slide-out fade (lines 2441-2445). -/
def trainerAlpha1 (p : SlideParams) (s : BattleSlideState) : Int :=
  let alpha0 : Int := if trainerStartSlideOut p s then 255 else s.trainerAlpha
  if trainerSlideOut1 p s then
    (if -180 < trainerSlidX p s then
      Rat.floor ((255 : ℚ) * (1 - min 1
        (|trainerMovedX p s - p.trainerTarget| /
          |p.trainerTarget - (-180 : ℚ)|)))
    else alpha0)
  else alpha0

/-- Whether the slide-out hides the trainer this tick (lines 2447-2450). -/
def trainerHide (p : SlideParams) (s : BattleSlideState) : Bool :=
  trainerSlideOut1 p s &&
  (decide (trainerMovedX p s ≤ -180) || decide (trainerAlpha1 p s ≤ 0))

def slideStep (p : SlideParams) (s : BattleSlideState) : BattleSlideState :=
  if s.trainerVisible then
    ⟨slideTowardInc p.grassTarget p.grassSpeed s.grassX,
     slideTowardInc p.statTarget p.statSpeed s.statX,
     slideTowardDec p.waterTarget p.waterSpeed s.waterX,
     slideTowardDec p.lugiaTarget p.waterSpeed s.lugiaX,
     trainerMovedX p s,
     if trainerHide p s then false else s.trainerVisible,
     trainerCanAnimate1 p s,
     trainerFrame1 p s,
     trainerAnimTime1 p s,
     trainerSlideOut1 p s,
     (if trainerHide p s then 0 else trainerAlpha1 p s),
     trainerStartSlideOut p s || s.venuVisible⟩
  else
    ⟨slideTowardInc p.grassTarget p.grassSpeed s.grassX,
     slideTowardInc p.statTarget p.statSpeed s.statX,
     slideTowardDec p.waterTarget p.waterSpeed s.waterX,
     slideTowardDec p.lugiaTarget p.waterSpeed s.lugiaX,
     s.trainerX, s.trainerVisible, s.trainerCanAnimate, s.trainerFrame,
     s.trainerAnimTime, s.trainerSlideOut, s.trainerAlpha, s.venuVisible⟩

def slideRun (p : SlideParams) : Nat → BattleSlideState → BattleSlideState
  | 0, s => s
  | n + 1, s => slideRun p n (slideStep p s)

/-- A concrete geometry for which the Lugia sprite travels farther than the
water (its slide mate): grass 480 px wide, stat panel and water 240 px wide,
Lugia 360 px at scale, 5 trainer frames.  Speeds come out as 8, 4, 4, 8; the
four checked elements arrive at tick 60 while the Lugia sprite (distance 300
at the water's speed 4) is still sliding until tick 75. -/
def exSlideParams : SlideParams := mkSlideParams 480 240 240 360 5

set_option maxRecDepth 100000 in
set_option maxHeartbeats 4000000 in
/-- Claim C7 counterexample: the completion check of lines 2386-2398 does not
include the Lugia sprite, so the trainer's throw-frame animation can advance
while the Lugia sprite has not yet reached its target: with the geometry of
`exSlideParams`, on tick 66 of the battle slide-in the trainer's frame index
advances from 0 to 1 while the Lugia sprite is still mid-slide (at x = 216,
short of its target 180, which it reaches only on tick 75). -/
theorem C7_counterexample :
    (slideRun exSlideParams 65 (battleStart 480 240)).trainerFrame = 0 ∧
    (slideRun exSlideParams 66 (battleStart 480 240)).trainerFrame = 1 ∧
    (slideRun exSlideParams 65 (battleStart 480 240)).lugiaX ≠
      exSlideParams.lugiaTarget ∧
    (slideRun exSlideParams 66 (battleStart 480 240)).lugiaX ≠
      exSlideParams.lugiaTarget := by
  norm_num [slideRun, slideStep, trainerMovedX, trainerSlideOut1,
    trainerStartSlideOut, trainerFire, trainerAdv, trainerCanAnimate1,
    slideAllComplete, trainerSlidX, trainerNotLast, trainerFrame1,
    trainerAnimTime1, trainerHide, trainerAlpha1, slideTowardInc,
    slideTowardDec, slideSpeed, mkSlideParams, battleStart, exSlideParams]

/-- The gating invariant behind the trainer animation: whenever
`battle_trainer_can_animate` is set, the grass, stat panel and water are at
their targets, and so is the trainer unless it has begun its slide-out. -/
def gateInv (p : SlideParams) (s : BattleSlideState) : Prop :=
  s.trainerCanAnimate = true →
    (s.grassX = p.grassTarget ∧ s.statX = p.statTarget ∧
     s.waterX = p.waterTarget ∧
     (s.trainerSlideOut = false → s.trainerX = p.trainerTarget))

theorem slideTowardInc_at_target (t sp : ℚ) : slideTowardInc t sp t = t := by
  simp [slideTowardInc]

theorem slideTowardDec_at_target (t sp : ℚ) : slideTowardDec t sp t = t := by
  simp [slideTowardDec]

/-- Whenever the latch is set after a tick, the tick's post-slide grass, stat
panel and water are at their targets, and so is the trainer provided its
slide-out flag is clear. -/
theorem trainerCanAnimate1_positions (p : SlideParams) (s : BattleSlideState)
    (hInv : gateInv p s) (hca : trainerCanAnimate1 p s = true) :
    slideTowardInc p.grassTarget p.grassSpeed s.grassX = p.grassTarget ∧
    slideTowardInc p.statTarget p.statSpeed s.statX = p.statTarget ∧
    slideTowardDec p.waterTarget p.waterSpeed s.waterX = p.waterTarget ∧
    (s.trainerSlideOut = false → trainerSlidX p s = p.trainerTarget) := by
  rcases Bool.or_eq_true_iff.mp hca with hpre | hall
  · obtain ⟨h1, h2, h3, h4⟩ := hInv hpre
    refine ⟨by rw [h1]; exact slideTowardInc_at_target _ _,
      by rw [h2]; exact slideTowardInc_at_target _ _,
      by rw [h3]; exact slideTowardDec_at_target _ _, fun hso => ?_⟩
    unfold trainerSlidX
    rw [h4 hso]
    exact slideTowardDec_at_target _ _
  · simp only [slideAllComplete, Bool.and_eq_true, decide_eq_true_eq] at hall
    exact ⟨hall.1.1.1, hall.1.1.2, hall.1.2, fun _ => hall.2⟩

/-- Amended claim C7: the trainer's throw-frame gate covers the grass, the
opponent stat panel, the water and the trainer itself — but not the Lugia
sprite: in every state satisfying the gating invariant (which the battle
start state does), a tick that advances the trainer's frame index leaves the
grass, stat panel, water and trainer exactly at their target positions; and
the invariant is preserved by every tick. -/
theorem C7_amended_gate_excludes_lugia (p : SlideParams)
    (s : BattleSlideState) (hInv : gateInv p s) :
    ((slideStep p s).trainerFrame ≠ s.trainerFrame →
      (slideStep p s).grassX = p.grassTarget ∧
      (slideStep p s).statX = p.statTarget ∧
      (slideStep p s).waterX = p.waterTarget ∧
      (slideStep p s).trainerX = p.trainerTarget) ∧
    gateInv p (slideStep p s) := by
  by_cases hv : s.trainerVisible = true
  swap
  · have hv' : s.trainerVisible = false := by
      cases h : s.trainerVisible
      · rfl
      · exact absurd h hv
    unfold slideStep
    rw [if_neg (by rw [hv']; exact Bool.false_ne_true)]
    refine ⟨fun hne => absurd rfl hne, ?_⟩
    intro hcan
    obtain ⟨h1, h2, h3, h4⟩ := hInv hcan
    exact ⟨by rw [h1]; exact slideTowardInc_at_target _ _,
      by rw [h2]; exact slideTowardInc_at_target _ _,
      by rw [h3]; exact slideTowardDec_at_target _ _, h4⟩
  · unfold slideStep
    rw [if_pos hv]
    constructor
    · intro hne
      have hfn : (trainerFire p s && trainerNotLast p s) = true := by
        by_contra hcon
        apply hne
        show trainerFrame1 p s = s.trainerFrame
        unfold trainerFrame1
        rw [if_neg (by simpa using hcon)]
      have hfire : trainerFire p s = true := (Bool.and_eq_true_iff.mp hfn).1
      have hnl : trainerNotLast p s = true := (Bool.and_eq_true_iff.mp hfn).2
      have hadv : trainerAdv p s = true := (Bool.and_eq_true_iff.mp hfire).1
      have hca : trainerCanAnimate1 p s = true :=
        (Bool.and_eq_true_iff.mp (Bool.and_eq_true_iff.mp hadv).1).1
      have htx : trainerSlidX p s = p.trainerTarget :=
        of_decide_eq_true (Bool.and_eq_true_iff.mp (Bool.and_eq_true_iff.mp hadv).1).2
      have hso : s.trainerSlideOut = false := by
        simpa using (Bool.and_eq_true_iff.mp hadv).2
      obtain ⟨g1, g2, g3, _⟩ := trainerCanAnimate1_positions p s hInv hca
      have hsso : trainerStartSlideOut p s = false := by
        unfold trainerStartSlideOut
        rw [hfire, hnl]
        rfl
      have hso1 : trainerSlideOut1 p s = false := by
        unfold trainerSlideOut1
        rw [hsso, hso]
        rfl
      have hmx : trainerMovedX p s = p.trainerTarget := by
        unfold trainerMovedX
        rw [hso1, if_neg Bool.false_ne_true]
        exact htx
      exact ⟨g1, g2, g3, hmx⟩
    · intro hcan'
      have hca : trainerCanAnimate1 p s = true := hcan'
      obtain ⟨g1, g2, g3, g4⟩ := trainerCanAnimate1_positions p s hInv hca
      refine ⟨g1, g2, g3, ?_⟩
      intro hso1'
      have hso1 : trainerSlideOut1 p s = false := hso1'
      have hpre : s.trainerSlideOut = false :=
        (Bool.or_eq_false_iff.mp hso1).2
      show trainerMovedX p s = p.trainerTarget
      unfold trainerMovedX
      rw [hso1, if_neg Bool.false_ne_true]
      exact g4 hpre

/-- Witness for the amended C7 at a concrete input: the battle start state of
the example geometry satisfies the gating invariant, and on its first tick
the trainer frame does not advance while the invariant is preserved. -/
theorem C7_amended_gate_excludes_lugia_witness :
    gateInv exSlideParams (battleStart 480 240) ∧
    (((slideStep exSlideParams (battleStart 480 240)).trainerFrame ≠
        (battleStart 480 240).trainerFrame →
      (slideStep exSlideParams (battleStart 480 240)).grassX =
        exSlideParams.grassTarget ∧
      (slideStep exSlideParams (battleStart 480 240)).statX =
        exSlideParams.statTarget ∧
      (slideStep exSlideParams (battleStart 480 240)).waterX =
        exSlideParams.waterTarget ∧
      (slideStep exSlideParams (battleStart 480 240)).trainerX =
        exSlideParams.trainerTarget) ∧
     gateInv exSlideParams (slideStep exSlideParams (battleStart 480 240))) :=
  ⟨by intro h; exact absurd h (by decide),
   C7_amended_gate_excludes_lugia exSlideParams (battleStart 480 240)
     (by intro h; exact absurd h (by decide))⟩

/-! ## Scene construction, on_enter, and the R-key restart (claim C1)

`MapSceneState` models the scene-object attributes relevant to the
construction/restart comparison: the phase flags, timers and battle-element
positions/alphas that `__init__` (lines 22-1103), `on_enter` (lines
1171-1256) and the R-key restart branch of `handle_event` (lines 1305-1513)
initialise, reset, or — in a few cases — forget to reset.  Attributes that
are constants never mutated after construction (layout y positions, element
targets, speeds, durations) are omitted, as are the exclamation display
state, render-only data and audio handles.  Asset dimensions enter through
`Assets` (pixel sizes of the loaded images, as Python ints). -/

inductive LugiaPhase where
  | hidden
  | flyingIn
  | animating
  | stopped
  deriving Repr, DecidableEq

inductive FadePhase where
  | none
  | fading
  | faded
  deriving Repr, DecidableEq

inductive MoveUsedPhase where
  | none
  | slidingDown
  | dialogShowing
  | fadingBlack
  deriving Repr, DecidableEq

inductive BattleTextPhase where
  | lugia
  | venusaur
  deriving Repr, DecidableEq

inductive ScreenPhase where
  | battle
  | bag
  | pokemon
  deriving Repr, DecidableEq

structure Assets where
  grassW : Int
  statW : Int
  waterW : Int
  waterH : Int
  lugiaW : Int
  lugiaH : Int
  dialogW : Int
  dialogH : Int
  deriving Repr, DecidableEq

structure MapSceneState where
  playerX : Int
  playerY : Int
  cameraX : Int
  cameraY : Int
  movingUp : Bool
  movingDown : Bool
  movingLeft : Bool
  movingRight : Bool
  currentDirection : Nat
  lugiaState : LugiaPhase
  lugiaX : ℚ
  lugiaY : ℚ
  lugiaCurrentFrame : Nat
  lugiaAnimationTime : ℚ
  lugiaAnimationComplete : Bool
  lugiaCryPlayed : Bool
  exclamationSoundPlayed : Bool
  trainerAnimationSoundPlayed : Bool
  venusaurSlideSoundPlayed : Bool
  sporeSoundPlayed : Bool
  spikeCannonSoundPlayed : Bool
  collisionSoundPlaying : Bool
  collisionSoundTimer : Nat
  battleMusicStarted : Bool
  dialogVisible : Bool
  dialogSlideY : ℚ
  dialogFullyVisible : Bool
  dialogText : String
  dialogPauseStartTime : Option Nat
  fadeState : FadePhase
  fadeAlpha : ℚ
  fadeComplete : Bool
  battleAnimationsStarted : Bool
  battleTextState : BattleTextPhase
  battleTextLugiaAlpha : ℚ
  battleTextVenusaurAlpha : ℚ
  battleTextFading : Bool
  currentScreen : ScreenPhase
  runTextVisible : Bool
  runTextAlpha : ℚ
  fullHpTextVisible : Bool
  combatUiVisible : Bool
  moveUsedState : MoveUsedPhase
  moveUsedUiSlideY : ℚ
  moveUsedDialogText : String
  moveUsedWaitTimer : Nat
  battleSlideOut : Bool
  promptPulseFadeOut : Bool
  backgroundBlackAlpha : ℚ
  blackBlockAlpha : ℚ
  assetsHidden : Bool
  venusaurCentered : Bool
  promptPulseChargeComplete : Bool
  promptPulseChargeCurrentFrame : Nat
  promptPulseChargeAnimationTime : ℚ
  fadeOutAfterShake : Bool
  attackPulseEndAlpha : ℚ
  blackBlockFadeOutAlpha : ℚ
  fadeOutTimer : Nat
  fadeInAfterAttack : Bool
  fadeInAfterAttackAlpha : ℚ
  fadeInAfterAttackTimer : Nat
  promptPulseAnimationTimer : Nat
  screenShakeActive : Bool
  screenShakeTimer : Nat
  screenShakeOffsetX : ℚ
  screenShakeOffsetY : ℚ
  lugiaRotationAngle : ℚ
  lugiaSlideInComplete : Bool
  screenShakeTriggeredAfterPulse : Bool
  venusaurMoveBack : Bool
  venusaurMoveBackTimer : Nat
  lugiaMoveBack : Bool
  lugiaMoveBackTimer : Nat
  battleLugiaAlpha : ℚ
  moveBackComplete : Bool
  battleDialogX : ℚ
  battleDialogAlpha : ℚ
  battleDialogVisible : Bool
  battleTrainerX : ℚ
  battleTrainerCurrentFrame : Nat
  battleTrainerAnimationTime : ℚ
  battleTrainerCanAnimate : Bool
  battleTrainerVisible : Bool
  battleTrainerSlideOut : Bool
  battleTrainerAlpha : ℚ
  battleVenuY : ℚ
  battleVenuVisible : Bool
  battleVenuCurrentFrame : Nat
  battleVenuAnimationTime : ℚ
  battleLugiaX : ℚ
  battleLugiaVisible : Bool
  battleLugiaCurrentFrame : Nat
  battleLugiaAnimationTime : ℚ
  battleGrassLeftX : ℚ
  battleGrassVisible : Bool
  battlePokemonstatX : ℚ
  battlePokemonstatVisible : Bool
  battleWaterX : ℚ
  battleWaterVisible : Bool
  fightUiAlpha : ℚ
  fightUiHoveredCell : Option (Nat × Nat)
  fightUiSelectedCell : Option (Nat × Nat)
  endSceneActive : Bool
  endSceneHealthBarTimer : Nat
  endSceneHealthBarWidth : Int
  endSceneHealthBarPauseTimer : Nat
  endSceneHealthBarCryPlayed : Bool
  endSceneLugiaFallTimer : Nat
  endSceneLugiaFallAlpha : ℚ
  endSceneFaintedTextActive : Bool
  endSceneFaintedTextTimer : Nat
  endSceneBlackBgDelayTimer : Nat
  endSceneBlackBgActive : Bool
  endSceneBlackBgAlpha : ℚ
  endSceneBlackBgTimer : Nat
  endSceneElementsFadeAlpha : ℚ
  endSceneMusicPlayed : Bool
  endSceneVenusaurActive : Bool
  endSceneVenusaurFadeTimer : Nat
  endSceneVenusaurFadeAlpha : ℚ
  endSceneVenusaurSlideTimer : Nat
  endScenePokemonShineActive : Bool
  endScenePokemonShineFadeTimer : Nat
  endScenePokemonShineFadeAlpha : ℚ
  endScenePokemonShineCurrentFrame : Nat
  endScenePokemonShineAnimationTime : Nat
  endSceneBgActive : Bool
  endSceneBgSlideTimer : Nat
  endSceneBgX : ℚ
  endSceneBgY : ℚ
  endSceneCursorActive : Bool
  endSceneCursorFadeTimer : Nat
  endSceneCursorFadeAlpha : ℚ
  endSceneCursorX : ℚ
  endSceneCursorY : ℚ
  endScenePressRActive : Bool
  endScenePressRFadeTimer : Nat
  endScenePressRFadeAlpha : ℚ
  endScenePressRBlinkTimer : Nat
  endScenePressRBlinkAlpha : ℚ
  endScenePressRFadeComplete : Bool
  endScenePressRX : ℚ
  endScenePressRY : ℚ

/-- The construction-time values of the modelled attributes (`__init__`,
lines 22-1103, with all assets loaded; `debug_start_at_attack_sequence` is
False, line 87).  `collision_sound_timer` is created lazily at line 3086 with
value 0, so 0 is its construction-time value. -/
def initState (a : Assets) (mapW _mapH : Int) : MapSceneState where
  playerX := 496
  playerY := 368
  cameraX := 0
  cameraY := 0
  movingUp := false
  movingDown := false
  movingLeft := false
  movingRight := false
  currentDirection := 1
  lugiaState := LugiaPhase.hidden
  lugiaX := ((lugia_target_x mapW : ℤ) : ℚ) + 50
  lugiaY := -200
  lugiaCurrentFrame := 0
  lugiaAnimationTime := 0
  lugiaAnimationComplete := false
  lugiaCryPlayed := false
  exclamationSoundPlayed := false
  trainerAnimationSoundPlayed := false
  venusaurSlideSoundPlayed := false
  sporeSoundPlayed := false
  spikeCannonSoundPlayed := false
  collisionSoundPlaying := false
  collisionSoundTimer := 0
  battleMusicStarted := false
  dialogVisible := false
  dialogSlideY := 320
  dialogFullyVisible := false
  dialogText := ""
  dialogPauseStartTime := none
  fadeState := FadePhase.none
  fadeAlpha := 0
  fadeComplete := false
  battleAnimationsStarted := false
  battleTextState := BattleTextPhase.lugia
  battleTextLugiaAlpha := 255
  battleTextVenusaurAlpha := 0
  battleTextFading := false
  currentScreen := ScreenPhase.battle
  runTextVisible := false
  runTextAlpha := 0
  fullHpTextVisible := false
  combatUiVisible := false
  moveUsedState := MoveUsedPhase.none
  moveUsedUiSlideY := 0
  moveUsedDialogText := ""
  moveUsedWaitTimer := 0
  battleSlideOut := false
  promptPulseFadeOut := false
  backgroundBlackAlpha := 0
  blackBlockAlpha := 0
  assetsHidden := false
  venusaurCentered := false
  promptPulseChargeComplete := false
  promptPulseChargeCurrentFrame := 0
  promptPulseChargeAnimationTime := 0
  fadeOutAfterShake := false
  attackPulseEndAlpha := 255
  blackBlockFadeOutAlpha := 255
  fadeOutTimer := 0
  fadeInAfterAttack := false
  fadeInAfterAttackAlpha := 0
  fadeInAfterAttackTimer := 0
  promptPulseAnimationTimer := 0
  screenShakeActive := false
  screenShakeTimer := 0
  screenShakeOffsetX := 0
  screenShakeOffsetY := 0
  lugiaRotationAngle := 0
  lugiaSlideInComplete := false
  screenShakeTriggeredAfterPulse := false
  venusaurMoveBack := false
  venusaurMoveBackTimer := 0
  lugiaMoveBack := false
  lugiaMoveBackTimer := 0
  battleLugiaAlpha := 255
  moveBackComplete := false
  battleDialogX := (((480 - a.dialogW).fdiv 2 : ℤ) : ℚ)
  battleDialogAlpha := 0
  battleDialogVisible := false
  battleTrainerX := 480
  battleTrainerCurrentFrame := 0
  battleTrainerAnimationTime := 0
  battleTrainerCanAnimate := false
  battleTrainerVisible := false
  battleTrainerSlideOut := false
  battleTrainerAlpha := 255
  battleVenuY := 320
  battleVenuVisible := false
  battleVenuCurrentFrame := 0
  battleVenuAnimationTime := 0
  battleLugiaX := 480
  battleLugiaVisible := false
  battleLugiaCurrentFrame := 0
  battleLugiaAnimationTime := 0
  battleGrassLeftX := ((-a.grassW : ℤ) : ℚ)
  battleGrassVisible := false
  battlePokemonstatX := ((-a.statW : ℤ) : ℚ)
  battlePokemonstatVisible := false
  battleWaterX := 480
  battleWaterVisible := false
  fightUiAlpha := 0
  fightUiHoveredCell := none
  fightUiSelectedCell := none
  endSceneActive := false
  endSceneHealthBarTimer := 0
  endSceneHealthBarWidth := 96
  endSceneHealthBarPauseTimer := 0
  endSceneHealthBarCryPlayed := false
  endSceneLugiaFallTimer := 0
  endSceneLugiaFallAlpha := 255
  endSceneFaintedTextActive := false
  endSceneFaintedTextTimer := 0
  endSceneBlackBgDelayTimer := 0
  endSceneBlackBgActive := false
  endSceneBlackBgAlpha := 0
  endSceneBlackBgTimer := 0
  endSceneElementsFadeAlpha := 255
  endSceneMusicPlayed := false
  endSceneVenusaurActive := false
  endSceneVenusaurFadeTimer := 0
  endSceneVenusaurFadeAlpha := 0
  endSceneVenusaurSlideTimer := 0
  endScenePokemonShineActive := false
  endScenePokemonShineFadeTimer := 0
  endScenePokemonShineFadeAlpha := 0
  endScenePokemonShineCurrentFrame := 0
  endScenePokemonShineAnimationTime := 0
  endSceneBgActive := false
  endSceneBgSlideTimer := 0
  endSceneBgX := 0
  endSceneBgY := 0
  endSceneCursorActive := false
  endSceneCursorFadeTimer := 0
  endSceneCursorFadeAlpha := 0
  endSceneCursorX := 0
  endSceneCursorY := 0
  endScenePressRActive := false
  endScenePressRFadeTimer := 0
  endScenePressRFadeAlpha := 0
  endScenePressRBlinkTimer := 0
  endScenePressRBlinkAlpha := 255
  endScenePressRFadeComplete := false
  endScenePressRX := 0
  endScenePressRY := 0

/-- `on_enter` (lines 1171-1256, with the debug flag False): resets the
player to the centre of cell (15, 11), recomputes the camera, clears the
movement flags and direction, restarts the map music (clearing
`battle_music_started`) and clears three sound one-shot flags. -/
def onEnter (mapW mapH : Int) (s : MapSceneState) : MapSceneState :=
  { s with
    playerX := 496,
    playerY := 368,
    cameraX := (update_camera mapW mapH 496 368).1,
    cameraY := (update_camera mapW mapH 496 368).2,
    movingUp := false,
    movingDown := false,
    movingLeft := false,
    movingRight := false,
    currentDirection := 1,
    battleMusicStarted := false,
    exclamationSoundPlayed := false,
    trainerAnimationSoundPlayed := false,
    venusaurSlideSoundPlayed := false }

/-- The R-key restart branch of `handle_event` (lines 1305-1513): calls
`on_enter` (line 1309) and then resets the listed attributes.  Every field
assignment below is the branch's final value for that field (`hasattr`-gated
assignments whose guard holds whenever the attribute differs from its
default are taken with assets loaded).  Note the fields that the branch does
NOT touch and that therefore keep their pre-restart values: `lugia_x`,
`lugia_animation_time`, `collision_sound_playing`, `collision_sound_timer`,
`dialog_text`, `fade_complete`, `full_hp_text_visible`,
`move_used_wait_timer` and `battle_trainer_animation_time`. -/
def restartScene (a : Assets) (mapW mapH : Int) (s : MapSceneState) :
    MapSceneState :=
  { s with
    playerX := 496,
    playerY := 368,
    cameraX := (update_camera mapW mapH 496 368).1,
    cameraY := (update_camera mapW mapH 496 368).2,
    movingUp := false,
    movingDown := false,
    movingLeft := false,
    movingRight := false,
    currentDirection := 1,
    lugiaState := LugiaPhase.hidden,
    lugiaY := -200,
    lugiaCurrentFrame := 0,
    lugiaAnimationComplete := false,
    lugiaCryPlayed := false,
    exclamationSoundPlayed := false,
    trainerAnimationSoundPlayed := false,
    venusaurSlideSoundPlayed := false,
    sporeSoundPlayed := false,
    spikeCannonSoundPlayed := false,
    battleMusicStarted := false,
    dialogVisible := false,
    dialogSlideY := 320,
    dialogFullyVisible := false,
    dialogPauseStartTime := none,
    fadeState := FadePhase.none,
    fadeAlpha := 0,
    battleAnimationsStarted := false,
    battleTextState := BattleTextPhase.lugia,
    battleTextLugiaAlpha := 255,
    battleTextVenusaurAlpha := 0,
    battleTextFading := false,
    currentScreen := ScreenPhase.battle,
    runTextVisible := false,
    runTextAlpha := 0,
    combatUiVisible := false,
    moveUsedState := MoveUsedPhase.none,
    moveUsedUiSlideY := 0,
    moveUsedDialogText := "",
    battleSlideOut := false,
    promptPulseFadeOut := false,
    backgroundBlackAlpha := 0,
    blackBlockAlpha := 0,
    assetsHidden := false,
    venusaurCentered := false,
    promptPulseChargeComplete := false,
    promptPulseChargeCurrentFrame := 0,
    promptPulseChargeAnimationTime := 0,
    fadeOutAfterShake := false,
    attackPulseEndAlpha := 255,
    blackBlockFadeOutAlpha := 255,
    fadeOutTimer := 0,
    fadeInAfterAttack := false,
    fadeInAfterAttackAlpha := 0,
    fadeInAfterAttackTimer := 0,
    promptPulseAnimationTimer := 0,
    screenShakeActive := false,
    screenShakeTimer := 0,
    screenShakeOffsetX := 0,
    screenShakeOffsetY := 0,
    lugiaRotationAngle := 0,
    lugiaSlideInComplete := false,
    screenShakeTriggeredAfterPulse := false,
    venusaurMoveBack := false,
    venusaurMoveBackTimer := 0,
    lugiaMoveBack := false,
    lugiaMoveBackTimer := 0,
    battleLugiaAlpha := 255,
    moveBackComplete := false,
    battleDialogX := (((480 - a.dialogW).fdiv 2 : ℤ) : ℚ),
    battleDialogAlpha := 0,
    battleDialogVisible := false,
    battleTrainerX := 480,
    battleTrainerCurrentFrame := 0,
    battleTrainerCanAnimate := false,
    battleTrainerVisible := false,
    battleTrainerSlideOut := false,
    battleTrainerAlpha := 255,
    battleVenuY := 320,
    battleVenuVisible := false,
    battleVenuCurrentFrame := 0,
    battleVenuAnimationTime := 0,
    battleLugiaX := 480,
    battleLugiaVisible := false,
    battleLugiaCurrentFrame := 0,
    battleLugiaAnimationTime := 0,
    battleGrassLeftX := ((-a.grassW : ℤ) : ℚ),
    battleGrassVisible := false,
    battlePokemonstatX := ((-a.statW : ℤ) : ℚ),
    battlePokemonstatVisible := false,
    battleWaterX := 480,
    battleWaterVisible := false,
    fightUiAlpha := 0,
    fightUiHoveredCell := none,
    fightUiSelectedCell := none,
    endSceneActive := false,
    endSceneHealthBarTimer := 0,
    endSceneHealthBarWidth := 96,
    endSceneHealthBarPauseTimer := 0,
    endSceneHealthBarCryPlayed := false,
    endSceneLugiaFallTimer := 0,
    endSceneLugiaFallAlpha := 255,
    endSceneFaintedTextActive := false,
    endSceneFaintedTextTimer := 0,
    endSceneBlackBgDelayTimer := 0,
    endSceneBlackBgActive := false,
    endSceneBlackBgAlpha := 0,
    endSceneBlackBgTimer := 0,
    endSceneElementsFadeAlpha := 255,
    endSceneMusicPlayed := false,
    endSceneVenusaurActive := false,
    endSceneVenusaurFadeTimer := 0,
    endSceneVenusaurFadeAlpha := 0,
    endSceneVenusaurSlideTimer := 0,
    endScenePokemonShineActive := false,
    endScenePokemonShineFadeTimer := 0,
    endScenePokemonShineFadeAlpha := 0,
    endScenePokemonShineCurrentFrame := 0,
    endScenePokemonShineAnimationTime := 0,
    endSceneBgActive := false,
    endSceneBgSlideTimer := 0,
    endSceneBgX := 0,
    endSceneBgY := 0,
    endSceneCursorActive := false,
    endSceneCursorFadeTimer := 0,
    endSceneCursorFadeAlpha := 0,
    endSceneCursorX := 0,
    endSceneCursorY := 0,
    endScenePressRActive := false,
    endScenePressRFadeTimer := 0,
    endScenePressRFadeAlpha := 0,
    endScenePressRBlinkTimer := 0,
    endScenePressRBlinkAlpha := 255,
    endScenePressRFadeComplete := false,
    endScenePressRX := 0,
    endScenePressRY := 0
  }

/-- The KEYDOWN handler for the right-arrow/D key (lines 1756-1773): ignored
while the dialog is showing or the cutscene owns control, else sets the
moving-right flag and the facing direction. -/
def pressRightKey (s : MapSceneState) : MapSceneState :=
  if s.dialogVisible then s
  else if decide (s.lugiaState ≠ LugiaPhase.hidden) && !s.lugiaAnimationComplete
    then s
  else { s with movingRight := true, currentDirection := 2 }

/-- One `update()` tick for a state in the map-exploration phase (fade not
started, battle not started): the map-music safety check (lines 1804-1815),
the movement gate (lines 1817-1842) and movement block (`moveCore`), the
camera recomputation (line 2051), the cutscene trigger (lines 2121-2140,
which also fires the exclamation sound one-shot), the run-text alpha update
(lines 3068-3071) and the collision-sound throttle (`collisionGateStep`,
lines 3079-3090).  The remaining update code is dead in this phase (it is
guarded by `dialog_visible`, `fade_state`, `move_used_state`,
`screen_shake_active`, `end_scene_active` and similar flags that are all in
their default values). -/
def sceneTickExploring (mapW mapH : Int) (dt : Nat) (s : MapSceneState) :
    MapSceneState :=
  let musicStarted :=
    if decide (s.fadeState = FadePhase.none) && s.battleMusicStarted then false
    else s.battleMusicStarted
  let locked := s.dialogVisible ||
    (decide (s.lugiaState ≠ LugiaPhase.hidden) && !s.lugiaAnimationComplete)
  let dx := if locked then 0 else
    (if s.movingLeft then -PLAYER_SPEED else 0) +
    (if s.movingRight then PLAYER_SPEED else 0)
  let dy := if locked then 0 else
    (if s.movingUp then -PLAYER_SPEED else 0) +
    (if s.movingDown then PLAYER_SPEED else 0)
  let dir := if locked then s.currentDirection else
    (if s.movingDown then 0 else if s.movingUp then 1
     else if s.movingRight then 2 else if s.movingLeft then 3
     else s.currentDirection)
  let m := moveCore mapW mapH s.playerX s.playerY dx dy
  let g := collisionGateStep m.gatedCond dt
    (s.collisionSoundPlaying, s.collisionSoundTimer)
  let cam := update_camera mapW mapH m.x m.y
  let trigger := decide (s.lugiaState = LugiaPhase.hidden) &&
    underLugia mapW mapH m.x m.y
  { s with
    battleMusicStarted := musicStarted,
    currentDirection := dir,
    playerX := m.x,
    playerY := m.y,
    cameraX := cam.1,
    cameraY := cam.2,
    collisionSoundPlaying := g.1.1,
    collisionSoundTimer := g.1.2,
    lugiaState := if trigger then LugiaPhase.flyingIn else s.lugiaState,
    exclamationSoundPlayed := s.exclamationSoundPlayed || trigger,
    runTextAlpha := if s.runTextVisible then 255 else 0 }

/-- A concrete asset geometry for the C1 counterexample (the refuted field
does not depend on it). -/
def exAssets : Assets := ⟨480, 120, 200, 150, 120, 100, 300, 60⟩

/-- Claim C1 counterexample: restarting does NOT restore every flag and
timer to its construction-time value.  From a freshly entered scene, press
and hold right for one update tick: the player stands on the edge cell
(16, 12) moving towards the non-walkable (17, 12), so the edge-hold
collision sound plays and sets `collision_sound_playing` (line 1949).
Pressing R now runs the restart branch, which never resets
`collision_sound_playing` (nor `collision_sound_timer`), leaving a flag from
the previous play-through in a non-default state. -/
theorem C1_counterexample :
    (restartScene exAssets 768 512
        (sceneTickExploring 768 512 16
          (pressRightKey
            (onEnter 768 512 (initState exAssets 768 512))))).collisionSoundPlaying
      = true ∧
    (initState exAssets 768 512).collisionSoundPlaying = false := by
  constructor
  · decide
  · rfl

/-- The field-by-field comparison the amended claim C1 asserts: agreement on
every modelled flag, timer and battle-element position/alpha that the
restart branch resets (the camera offset, which `on_enter` recomputes from
the player position rather than resetting to the constructor's (0, 0), is
compared by neither the claim nor this predicate). -/
def restartAgreesWithFresh (s t : MapSceneState) : Prop :=
  s.playerX = t.playerX ∧
  s.playerY = t.playerY ∧
  s.movingUp = t.movingUp ∧
  s.movingDown = t.movingDown ∧
  s.movingLeft = t.movingLeft ∧
  s.movingRight = t.movingRight ∧
  s.currentDirection = t.currentDirection ∧
  s.lugiaState = t.lugiaState ∧
  s.lugiaY = t.lugiaY ∧
  s.lugiaCurrentFrame = t.lugiaCurrentFrame ∧
  s.lugiaAnimationComplete = t.lugiaAnimationComplete ∧
  s.lugiaCryPlayed = t.lugiaCryPlayed ∧
  s.exclamationSoundPlayed = t.exclamationSoundPlayed ∧
  s.trainerAnimationSoundPlayed = t.trainerAnimationSoundPlayed ∧
  s.venusaurSlideSoundPlayed = t.venusaurSlideSoundPlayed ∧
  s.sporeSoundPlayed = t.sporeSoundPlayed ∧
  s.spikeCannonSoundPlayed = t.spikeCannonSoundPlayed ∧
  s.battleMusicStarted = t.battleMusicStarted ∧
  s.dialogVisible = t.dialogVisible ∧
  s.dialogSlideY = t.dialogSlideY ∧
  s.dialogFullyVisible = t.dialogFullyVisible ∧
  s.dialogPauseStartTime = t.dialogPauseStartTime ∧
  s.fadeState = t.fadeState ∧
  s.fadeAlpha = t.fadeAlpha ∧
  s.battleAnimationsStarted = t.battleAnimationsStarted ∧
  s.battleTextState = t.battleTextState ∧
  s.battleTextLugiaAlpha = t.battleTextLugiaAlpha ∧
  s.battleTextVenusaurAlpha = t.battleTextVenusaurAlpha ∧
  s.battleTextFading = t.battleTextFading ∧
  s.currentScreen = t.currentScreen ∧
  s.runTextVisible = t.runTextVisible ∧
  s.runTextAlpha = t.runTextAlpha ∧
  s.combatUiVisible = t.combatUiVisible ∧
  s.moveUsedState = t.moveUsedState ∧
  s.moveUsedUiSlideY = t.moveUsedUiSlideY ∧
  s.moveUsedDialogText = t.moveUsedDialogText ∧
  s.battleSlideOut = t.battleSlideOut ∧
  s.promptPulseFadeOut = t.promptPulseFadeOut ∧
  s.backgroundBlackAlpha = t.backgroundBlackAlpha ∧
  s.blackBlockAlpha = t.blackBlockAlpha ∧
  s.assetsHidden = t.assetsHidden ∧
  s.venusaurCentered = t.venusaurCentered ∧
  s.promptPulseChargeComplete = t.promptPulseChargeComplete ∧
  s.promptPulseChargeCurrentFrame = t.promptPulseChargeCurrentFrame ∧
  s.promptPulseChargeAnimationTime = t.promptPulseChargeAnimationTime ∧
  s.fadeOutAfterShake = t.fadeOutAfterShake ∧
  s.attackPulseEndAlpha = t.attackPulseEndAlpha ∧
  s.blackBlockFadeOutAlpha = t.blackBlockFadeOutAlpha ∧
  s.fadeOutTimer = t.fadeOutTimer ∧
  s.fadeInAfterAttack = t.fadeInAfterAttack ∧
  s.fadeInAfterAttackAlpha = t.fadeInAfterAttackAlpha ∧
  s.fadeInAfterAttackTimer = t.fadeInAfterAttackTimer ∧
  s.promptPulseAnimationTimer = t.promptPulseAnimationTimer ∧
  s.screenShakeActive = t.screenShakeActive ∧
  s.screenShakeTimer = t.screenShakeTimer ∧
  s.screenShakeOffsetX = t.screenShakeOffsetX ∧
  s.screenShakeOffsetY = t.screenShakeOffsetY ∧
  s.lugiaRotationAngle = t.lugiaRotationAngle ∧
  s.lugiaSlideInComplete = t.lugiaSlideInComplete ∧
  s.screenShakeTriggeredAfterPulse = t.screenShakeTriggeredAfterPulse ∧
  s.venusaurMoveBack = t.venusaurMoveBack ∧
  s.venusaurMoveBackTimer = t.venusaurMoveBackTimer ∧
  s.lugiaMoveBack = t.lugiaMoveBack ∧
  s.lugiaMoveBackTimer = t.lugiaMoveBackTimer ∧
  s.battleLugiaAlpha = t.battleLugiaAlpha ∧
  s.moveBackComplete = t.moveBackComplete ∧
  s.battleDialogX = t.battleDialogX ∧
  s.battleDialogAlpha = t.battleDialogAlpha ∧
  s.battleDialogVisible = t.battleDialogVisible ∧
  s.battleTrainerX = t.battleTrainerX ∧
  s.battleTrainerCurrentFrame = t.battleTrainerCurrentFrame ∧
  s.battleTrainerCanAnimate = t.battleTrainerCanAnimate ∧
  s.battleTrainerVisible = t.battleTrainerVisible ∧
  s.battleTrainerSlideOut = t.battleTrainerSlideOut ∧
  s.battleTrainerAlpha = t.battleTrainerAlpha ∧
  s.battleVenuY = t.battleVenuY ∧
  s.battleVenuVisible = t.battleVenuVisible ∧
  s.battleVenuCurrentFrame = t.battleVenuCurrentFrame ∧
  s.battleVenuAnimationTime = t.battleVenuAnimationTime ∧
  s.battleLugiaX = t.battleLugiaX ∧
  s.battleLugiaVisible = t.battleLugiaVisible ∧
  s.battleLugiaCurrentFrame = t.battleLugiaCurrentFrame ∧
  s.battleLugiaAnimationTime = t.battleLugiaAnimationTime ∧
  s.battleGrassLeftX = t.battleGrassLeftX ∧
  s.battleGrassVisible = t.battleGrassVisible ∧
  s.battlePokemonstatX = t.battlePokemonstatX ∧
  s.battlePokemonstatVisible = t.battlePokemonstatVisible ∧
  s.battleWaterX = t.battleWaterX ∧
  s.battleWaterVisible = t.battleWaterVisible ∧
  s.fightUiAlpha = t.fightUiAlpha ∧
  s.fightUiHoveredCell = t.fightUiHoveredCell ∧
  s.fightUiSelectedCell = t.fightUiSelectedCell ∧
  s.endSceneActive = t.endSceneActive ∧
  s.endSceneHealthBarTimer = t.endSceneHealthBarTimer ∧
  s.endSceneHealthBarWidth = t.endSceneHealthBarWidth ∧
  s.endSceneHealthBarPauseTimer = t.endSceneHealthBarPauseTimer ∧
  s.endSceneHealthBarCryPlayed = t.endSceneHealthBarCryPlayed ∧
  s.endSceneLugiaFallTimer = t.endSceneLugiaFallTimer ∧
  s.endSceneLugiaFallAlpha = t.endSceneLugiaFallAlpha ∧
  s.endSceneFaintedTextActive = t.endSceneFaintedTextActive ∧
  s.endSceneFaintedTextTimer = t.endSceneFaintedTextTimer ∧
  s.endSceneBlackBgDelayTimer = t.endSceneBlackBgDelayTimer ∧
  s.endSceneBlackBgActive = t.endSceneBlackBgActive ∧
  s.endSceneBlackBgAlpha = t.endSceneBlackBgAlpha ∧
  s.endSceneBlackBgTimer = t.endSceneBlackBgTimer ∧
  s.endSceneElementsFadeAlpha = t.endSceneElementsFadeAlpha ∧
  s.endSceneMusicPlayed = t.endSceneMusicPlayed ∧
  s.endSceneVenusaurActive = t.endSceneVenusaurActive ∧
  s.endSceneVenusaurFadeTimer = t.endSceneVenusaurFadeTimer ∧
  s.endSceneVenusaurFadeAlpha = t.endSceneVenusaurFadeAlpha ∧
  s.endSceneVenusaurSlideTimer = t.endSceneVenusaurSlideTimer ∧
  s.endScenePokemonShineActive = t.endScenePokemonShineActive ∧
  s.endScenePokemonShineFadeTimer = t.endScenePokemonShineFadeTimer ∧
  s.endScenePokemonShineFadeAlpha = t.endScenePokemonShineFadeAlpha ∧
  s.endScenePokemonShineCurrentFrame = t.endScenePokemonShineCurrentFrame ∧
  s.endScenePokemonShineAnimationTime = t.endScenePokemonShineAnimationTime ∧
  s.endSceneBgActive = t.endSceneBgActive ∧
  s.endSceneBgSlideTimer = t.endSceneBgSlideTimer ∧
  s.endSceneBgX = t.endSceneBgX ∧
  s.endSceneBgY = t.endSceneBgY ∧
  s.endSceneCursorActive = t.endSceneCursorActive ∧
  s.endSceneCursorFadeTimer = t.endSceneCursorFadeTimer ∧
  s.endSceneCursorFadeAlpha = t.endSceneCursorFadeAlpha ∧
  s.endSceneCursorX = t.endSceneCursorX ∧
  s.endSceneCursorY = t.endSceneCursorY ∧
  s.endScenePressRActive = t.endScenePressRActive ∧
  s.endScenePressRFadeTimer = t.endScenePressRFadeTimer ∧
  s.endScenePressRFadeAlpha = t.endScenePressRFadeAlpha ∧
  s.endScenePressRBlinkTimer = t.endScenePressRBlinkTimer ∧
  s.endScenePressRBlinkAlpha = t.endScenePressRBlinkAlpha ∧
  s.endScenePressRFadeComplete = t.endScenePressRFadeComplete ∧
  s.endScenePressRX = t.endScenePressRX ∧
  s.endScenePressRY = t.endScenePressRY

/-- Amended claim C1: the explicit restart command restores every modelled
phase flag, timer and battle element position/alpha to its construction-time
value EXCEPT `lugia_x`, `lugia_animation_time`, `collision_sound_playing`,
`collision_sound_timer`, `dialog_text`, `fade_complete`,
`full_hp_text_visible`, `move_used_wait_timer` and
`battle_trainer_animation_time`, which keep their pre-restart values (and
the camera, which is recomputed from the player position). -/
theorem C1_amended_restart_resets_modeled_fields (a : Assets)
    (mapW mapH : Int) (s : MapSceneState) :
    restartAgreesWithFresh (restartScene a mapW mapH s) (initState a mapW mapH) :=
  ⟨rfl, rfl, rfl, rfl, rfl, rfl, rfl, rfl, rfl, rfl, rfl, rfl, rfl, rfl, rfl, rfl, rfl, rfl, rfl, rfl, rfl, rfl, rfl, rfl, rfl, rfl, rfl, rfl, rfl, rfl, rfl, rfl, rfl, rfl, rfl, rfl, rfl, rfl, rfl, rfl, rfl, rfl, rfl, rfl, rfl, rfl, rfl, rfl, rfl, rfl, rfl, rfl, rfl, rfl, rfl, rfl, rfl, rfl, rfl, rfl, rfl, rfl, rfl, rfl, rfl, rfl, rfl, rfl, rfl, rfl, rfl, rfl, rfl, rfl, rfl, rfl, rfl, rfl, rfl, rfl, rfl, rfl, rfl, rfl, rfl, rfl, rfl, rfl, rfl, rfl, rfl, rfl, rfl, rfl, rfl, rfl, rfl, rfl, rfl, rfl, rfl, rfl, rfl, rfl, rfl, rfl, rfl, rfl, rfl, rfl, rfl, rfl, rfl, rfl, rfl, rfl, rfl, rfl, rfl, rfl, rfl, rfl, rfl, rfl, rfl, rfl, rfl, rfl, rfl, rfl, rfl, rfl, rfl⟩


/-- Amended claim C8: on every modelled update tick the camera offset is
recomputed as `update_camera` of the post-tick player position — the clamp
of the player's TOP-LEFT corner minus half the screen size (line 1790), not
of the player's centre point — and the result always lies inside
`[0, max 0 (map - screen)]` componentwise, so the viewport never exceeds the
map edges; the camera is never animated independently of this
recomputation. -/
theorem C8_amended_camera_topleft_recomputed_each_tick (mapW mapH : Int)
    (dt : Nat) (s : MapSceneState) :
    (((sceneTickExploring mapW mapH dt s).cameraX,
       (sceneTickExploring mapW mapH dt s).cameraY) =
      update_camera mapW mapH (sceneTickExploring mapW mapH dt s).playerX
        (sceneTickExploring mapW mapH dt s).playerY) ∧
    ∀ x y : Int,
      0 ≤ (update_camera mapW mapH x y).1 ∧
      (update_camera mapW mapH x y).1 ≤ max 0 (mapW - SCREEN_WIDTH) ∧
      0 ≤ (update_camera mapW mapH x y).2 ∧
      (update_camera mapW mapH x y).2 ≤ max 0 (mapH - SCREEN_HEIGHT) := by
  refine ⟨rfl, fun x y => ?_⟩
  unfold update_camera
  dsimp only
  generalize x - SCREEN_WIDTH.fdiv 2 = tx
  generalize y - SCREEN_HEIGHT.fdiv 2 = ty
  omega

end PokemonMap
